import Mathlib

/-!
Verification of the cleaning/corruption pipeline of the ZFF movie-scraper
repository (`movie_cleaner.py`, `add_dirt.py`).

The embedding models a pandas cell as `Cell`: a text value (a list of
characters), an integer value, or `Cell.nan` (the `np.nan` / missing marker,
the "unknown" sentinel; `pd.isna` is true exactly on it).  Python string
operations used by the source (`strip`, `lower`, slicing, `split`, `in`,
`int(...)`, `str(...)`) are modelled over `List Char`.  A function of the
source that can raise an uncaught exception is embedded with an `Option`
result: `none` is an uncaught exception escaping the function, `some c` is a
normal return of `c`.
-/

/-- A pandas cell value: text, integer, or the NaN missing marker. -/
inductive Cell where
  | str (s : List Char)
  | int (n : ℤ)
  | nan
deriving DecidableEq

/-- Characters of a string literal (convenience for concrete test inputs). -/
def cl (s : String) : List Char :=
  s.toList

/-- Python `str.strip` whitespace class (the ASCII part used by the data). -/
def isPySpace (c : Char) : Bool :=
  c = ' ' || c = '\t' || c = '\n' || c = '\r'

/-- Python `s.strip()`: drop leading and trailing whitespace. -/
def pyStrip (s : List Char) : List Char :=
  ((s.dropWhile isPySpace).reverse.dropWhile isPySpace).reverse

/-- Python `s[-n:]`: the last `n` characters (the whole string if shorter). -/
def lastChars (n : ℕ) (s : List Char) : List Char :=
  s.drop (s.length - n)

/-- Python `s[:-n]`: all but the last `n` characters (empty if not longer). -/
def dropLastChars (n : ℕ) (s : List Char) : List Char :=
  s.take (s.length - n)

/-- Decimal digit character of `n < 10`. -/
def digitChar (n : ℕ) : Char :=
  Char.ofNat (48 + n)

/-- Fuelled decimal rendering of a natural number. -/
def natToCharsAux : ℕ → ℕ → List Char
  | 0, _ => []
  | fuel + 1, n =>
    if n < 10 then [digitChar n]
    else natToCharsAux fuel (n / 10) ++ [digitChar (n % 10)]

/-- Python `str(n)` for a natural number. -/
def natToChars (n : ℕ) : List Char :=
  natToCharsAux (n + 1) n

/-- Python `str(i)` for an integer (a `-` sign when negative). -/
def intToChars (i : ℤ) : List Char :=
  if i < 0 then '-' :: natToChars i.natAbs else natToChars i.toNat

/-- Value of a decimal digit character, `none` on any other character. -/
def digitVal (c : Char) : Option ℕ :=
  if '0' ≤ c ∧ c ≤ '9' then some (c.toNat - 48) else none

/-- Accumulating parse of a nonempty all-digit run. -/
def parseDigitsAux : ℕ → List Char → Option ℕ
  | acc, [] => some acc
  | acc, c :: rest =>
    match digitVal c with
    | some d => parseDigitsAux (acc * 10 + d) rest
    | none => none

/-- Parse a nonempty decimal digit string; `none` if empty or non-digit. -/
def parseDigits : List Char → Option ℕ
  | [] => none
  | c :: rest => parseDigitsAux 0 (c :: rest)

/-- Python `int(s)` on a string: surrounding whitespace allowed, one optional
sign, then a nonempty digit run; `none` models the `ValueError` raise. -/
def parsePyInt (s : List Char) : Option ℤ :=
  match pyStrip s with
  | '-' :: ds => (parseDigits ds).map (fun n => -(n : ℤ))
  | '+' :: ds => (parseDigits ds).map (fun n => (n : ℤ))
  | ds => (parseDigits ds).map (fun n => (n : ℤ))

/-- Does `pat` occur at the head of `s`? -/
def matchesAt : List Char → List Char → Bool
  | [], _ => true
  | _ :: _, [] => false
  | a :: as, b :: bs => a = b && matchesAt as bs

/-- Split `s` at the first occurrence of `sep`: the part before it and the
part after it, or `none` when `sep` does not occur. -/
def breakOnSub (sep : List Char) : List Char → Option (List Char × List Char)
  | [] => none
  | c :: rest =>
    if matchesAt sep (c :: rest) then some ([], (c :: rest).drop sep.length)
    else
      match breakOnSub sep rest with
      | none => none
      | some (pre, post) => some (c :: pre, post)

/-- Python `sep in s` (substring membership) for nonempty `sep`. -/
def containsSub (sep s : List Char) : Bool :=
  (breakOnSub sep s).isSome

/-- Fuelled split of a string at every occurrence of `sep`. -/
def splitOnSubFuel : ℕ → List Char → List Char → List (List Char)
  | 0, _, s => [s]
  | fuel + 1, sep, s =>
    match breakOnSub sep s with
    | none => [s]
    | some (pre, post) => pre :: splitOnSubFuel fuel sep post

/-- Python `s.split(sep)` for nonempty `sep`. -/
def splitOnSub (sep s : List Char) : List (List Char) :=
  splitOnSubFuel (s.length + 1) sep s

/-- Python `s.split(",")`: split at every comma; `"".split(",")` is `[""]`. -/
def splitOnChar (sep : Char) : List Char → List (List Char)
  | [] => [[]]
  | c :: rest =>
    if c = sep then [] :: splitOnChar sep rest
    else
      match splitOnChar sep rest with
      | [] => [[c]]
      | t :: ts => (c :: t) :: ts

/-! Constants of `movie_cleaner.py`. -/

def MAX_YEAR : ℤ := 2020

def MIN_YEAR : ℤ := 1930

def RUNTIME_MIN : ℤ := 2

def RUNTIME_MAX : ℤ := 400

/-- The separator `"hrs"` used by the runtime converters. -/
def hrsSep : List Char :=
  ['h', 'r', 's']

/-- `movie_cleaner.convert_hr_to_min`: convert `"X hrs Y"` to `"ZZ Min"`.
Non-strings are returned unchanged (the `isinstance` guard); a string without
`"hrs"` is returned unchanged; any exception inside the `try` yields `""`. -/
def convert_hr_to_min (cell_value : Cell) : Cell :=
  match cell_value with
  | Cell.int n => Cell.int n
  | Cell.nan => Cell.nan
  | Cell.str s =>
    let low := pyStrip (s.map Char.toLower)
    if containsSub hrsSep low then
      match splitOnSub hrsSep low with
      | v0 :: v1 :: _ =>
        match parsePyInt (pyStrip v0), parsePyInt (pyStrip v1) with
        | some h, some m => Cell.str (intToChars (h * 60 + m) ++ cl " Min")
        | _, _ => Cell.str []
      | _ => Cell.str []
    else Cell.str s

/-- `movie_cleaner.convert_min_string_to_int`: convert `"80 Min"` or `"80"`
to the integer `80`.  NaN propagates.  In the `"min"`-suffix branch the
`int(...)` call sits outside any `try`, so a non-integer prefix raises an
uncaught `ValueError`: that raise is the `none` result.  The bare-number
branch catches its exception and falls through to NaN. -/
def convert_min_string_to_int (cell_value : Cell) : Option Cell :=
  match cell_value with
  | Cell.nan => some Cell.nan
  | Cell.int n => some (Cell.int n)
  | Cell.str s =>
    if lastChars 3 (pyStrip (s.map Char.toLower)) = cl "min" then
      match parsePyInt (pyStrip (dropLastChars 3 (pyStrip s))) with
      | some n => some (Cell.int n)
      | none => none
    else
      match parsePyInt s with
      | some n => some (Cell.int n)
      | none => some Cell.nan

/-- `movie_cleaner.check_runtime_outliers`: NaN passes through; an integer
outside `[RUNTIME_MIN, RUNTIME_MAX]` becomes NaN; comparing a string with an
integer would raise an uncaught `TypeError` (`none`). -/
def check_runtime_outliers (cell_value : Cell) : Option Cell :=
  match cell_value with
  | Cell.nan => some Cell.nan
  | Cell.int v =>
    some (if v < RUNTIME_MIN ∨ v > RUNTIME_MAX then Cell.nan else Cell.int v)
  | Cell.str _ => none

/-- Per-cell composition applied by `movie_cleaner.clean_runtime_column`:
`convert_hr_to_min`, then `convert_min_string_to_int`, then
`check_runtime_outliers` (the final `astype` is the identity on int/NaN). -/
def clean_runtime_cell (c : Cell) : Option Cell :=
  (convert_min_string_to_int (convert_hr_to_min c)).bind check_runtime_outliers

/-- `movie_cleaner.validate_year`: the rejection branch tests
`year > MAX_YEAR and year < MIN_YEAR`; otherwise `int(year)` is returned,
with its exception caught to NaN.  On NaN both comparisons are false and
`int(nan)` raises inside the `try`, so NaN is returned.  On a string the
comparison itself raises an uncaught `TypeError` (`none`). -/
def validate_year (year : Cell) : Option Cell :=
  match year with
  | Cell.int y =>
    some (if y > MAX_YEAR ∧ y < MIN_YEAR then Cell.nan else Cell.int y)
  | Cell.nan => some Cell.nan
  | Cell.str _ => none

/-- Numeric branch of `movie_cleaner.convert_year_to_four`. -/
def convert_year_to_four_num (v : ℤ) : Cell :=
  if v > 99 then Cell.int v
  else if v ≥ 20 then Cell.int (1900 + v)
  else Cell.int (2000 + v)

/-- `movie_cleaner.convert_year_to_four`: NaN passes through; a string is
first parsed with `int(...)` (its `ValueError` is caught to NaN); then the
`>99` / `>=20` ladder applies. -/
def convert_year_to_four (cell_value : Cell) : Cell :=
  match cell_value with
  | Cell.nan => Cell.nan
  | Cell.int v => convert_year_to_four_num v
  | Cell.str s =>
    match parsePyInt s with
    | some v => convert_year_to_four_num v
    | none => Cell.nan

/-- `movie_cleaner.concat_director_values` on the two cells of one row:
if `directors` is NaN return the `director` cell (whatever it is); else if
`director` is NaN return `directors`; else return
`director + "," + directors` (an uncaught `TypeError`, `none`, unless both
are strings).  The trailing `return ""` of the source is unreachable. -/
def concat_director_values (director directors : Cell) : Option Cell :=
  if directors = Cell.nan then some director
  else if director = Cell.nan then some directors
  else
    match director, directors with
    | Cell.str a, Cell.str b => some (Cell.str (a ++ ',' :: b))
    | _, _ => none

/-- `movie_cleaner.count_countries`: NaN counts 0; a string counts the
segments of `split(",")`; `.split` on a non-string raises (`none`). -/
def count_countries (country_list : Cell) : Option ℤ :=
  match country_list with
  | Cell.nan => some 0
  | Cell.str s => some ((splitOnChar ',' s).length : ℤ)
  | Cell.int _ => none

/-- The per-cell lambda of `movie_cleaner.remove_leading_comma`:
`cell_value[1:] if not pd.isna(cell_value) and cell_value[0] == "," else
cell_value`.  Indexing `""` raises `IndexError` and indexing a non-string
raises `TypeError`; both are uncaught (`none`). -/
def remove_leading_comma_cell (cell_value : Cell) : Option Cell :=
  match cell_value with
  | Cell.nan => some Cell.nan
  | Cell.str [] => none
  | Cell.str (c :: rest) =>
    some (if c = ',' then Cell.str rest else Cell.str (c :: rest))
  | Cell.int _ => none

/-- `movie_cleaner.remove_leading_comma` over the target column: the per-cell
lambda applied to every cell; an exception at any cell escapes. -/
def remove_leading_comma_col : List Cell → Option (List Cell)
  | [] => some []
  | c :: rest =>
    match remove_leading_comma_cell c, remove_leading_comma_col rest with
    | some c2, some rest2 => some (c2 :: rest2)
    | _, _ => none

/-- `add_dirt.convert_to_hr`: convert `"90 Min"` to `"1 hrs 30"`.  The whole
body is inside one `try`; any exception (`.strip()` on a non-string, `int` on
a non-numeric prefix) returns the original cell.  Python `//` and `%` are
floor division and floor modulus (`Int.fdiv` / `Int.fmod`). -/
def convert_to_hr (cell_value : Cell) : Cell :=
  match cell_value with
  | Cell.int n => Cell.int n
  | Cell.nan => Cell.nan
  | Cell.str s =>
    match parsePyInt (pyStrip (dropLastChars 3 (pyStrip s))) with
    | none => Cell.str s
    | some m =>
      Cell.str (intToChars (Int.fdiv m 60) ++ cl " hrs " ++
        intToChars (Int.fmod m 60))

/-- A table row for the `add_dirt` transforms: its runtime cell plus an
opaque stand-in for the remaining columns (never touched by them). -/
structure Row where
  runtime : Cell
  others : ℕ
deriving DecidableEq

/-- Positional overwrite performed by `original_df.update(new_df)` in
`change_runtime_to_hour_min`: the rows of the filtered frame whose position
lies in the sampled index set get `convert_to_hr` applied to their runtime. -/
def updateSampled (sampled : List ℕ) : ℕ → List Row → List Row
  | _, [] => []
  | i, r :: rest =>
    (if i ∈ sampled then { r with runtime := convert_to_hr r.runtime } else r)
      :: updateSampled sampled (i + 1) rest

/-- `add_dirt.change_runtime_to_hour_min`, with the random choice of
`sample(frac=ratio)` exposed as the list of sampled positions: the function
first rebinds the frame to the rows whose runtime is not NaN
(`original_df = original_df[original_df[COLN_RUNTIME].notna()]`), converts
the sampled rows' runtime, and returns that filtered frame. -/
def change_runtime_to_hour_min (table : List Row) (sampled : List ℕ) :
    List Row :=
  updateSampled sampled 0 (table.filter (fun r => r.runtime != Cell.nan))

/-- `add_dirt.add_duplicate_rows`, with the random sample exposed as the list
of sampled rows: the sample is concatenated with itself
(`pd.concat([new_df] * 2)`) and appended to the original table. -/
def add_duplicate_rows (table : List Row) (sampled : List Row) : List Row :=
  table ++ (sampled ++ sampled)

/-- Floor of a rational. -/
def ratFloor (q : ℚ) : ℤ :=
  Int.floor q

/-- Python 3 `round` to an integer (also used by pandas
`DataFrame.sample(frac=...)` for the sample size): round half to even. -/
def pyRound (q : ℚ) : ℤ :=
  let f := ratFloor q
  if q - (f : ℚ) < 1 / 2 then f
  else if q - (f : ℚ) > 1 / 2 then f + 1
  else if f % 2 = 0 then f else f + 1

/-- Stated from the claim, for comparison with `remove_leading_comma_cell`:
drop a leading comma from a text cell, otherwise change nothing. -/
def stripLeadingCommaSpec (c : Cell) : Cell :=
  match c with
  | Cell.str (a :: rest) =>
    if a = ',' then Cell.str rest else Cell.str (a :: rest)
  | c => c

/-- `splitOnChar` never returns an empty list of segments. -/
theorem splitOnChar_ne_nil (sep : Char) (s : List Char) :
    splitOnChar sep s ≠ [] := by
  cases s with
  | nil => simp [splitOnChar]
  | cons c rest =>
    simp only [splitOnChar]
    split
    · simp
    · split <;> simp

/-- A split has one more segment than the string has separators. -/
theorem splitOnChar_length (sep : Char) (s : List Char) :
    (splitOnChar sep s).length = s.count sep + 1 := by
  induction s with
  | nil => simp [splitOnChar]
  | cons c rest ih =>
    simp only [splitOnChar]
    by_cases h : c = sep
    · subst h
      simp [List.count_cons, ih]
    · rw [if_neg h]
      cases hsp : splitOnChar sep rest with
      | nil => exact absurd hsp (splitOnChar_ne_nil sep rest)
      | cons t ts =>
        have := ih
        rw [hsp] at this
        simp only [List.length_cons] at this ⊢
        rw [List.count_cons]
        simp only [beq_iff_eq]
        rw [if_neg h]
        omega

/-- `convert_to_hr` never produces NaN from a non-NaN cell. -/
theorem convert_to_hr_ne_nan (c : Cell) (h : c ≠ Cell.nan) :
    convert_to_hr c ≠ Cell.nan := by
  cases c with
  | nan => exact absurd rfl h
  | int n => simp [convert_to_hr]
  | str s =>
    simp only [convert_to_hr]
    split <;> simp

/-- Rows of the positional overwrite keep a non-NaN runtime when the input
rows all have one. -/
theorem updateSampled_runtime_ne_nan (sampled : List ℕ) (k : ℕ)
    (l : List Row) (hl : ∀ r ∈ l, r.runtime ≠ Cell.nan) :
    ∀ r ∈ updateSampled sampled k l, r.runtime ≠ Cell.nan := by
  induction l generalizing k with
  | nil =>
    intro r hr
    simp [updateSampled] at hr
  | cons x xs ih =>
    intro r hr
    simp only [updateSampled, List.mem_cons] at hr
    rcases hr with h | h
    · subst h
      split
      · exact convert_to_hr_ne_nan x.runtime (hl x (List.mem_cons_self x xs))
      · exact hl x (List.mem_cons_self x xs)
    · exact ih (k + 1) (fun r hr => hl r (List.mem_cons_of_mem x hr)) r h

/-- A position outside the sampled index set is untouched by the positional
overwrite. -/
theorem updateSampled_get_not_sampled (sampled : List ℕ) (l : List Row)
    (k i : ℕ) (h : (k + i) ∉ sampled) :
    (updateSampled sampled k l)[i]? = l[i]? := by
  induction l generalizing k i with
  | nil => simp [updateSampled]
  | cons x xs ih =>
    cases i with
    | zero =>
      simp only [updateSampled, List.getElem?_cons_zero]
      rw [if_neg (by simpa using h)]
    | succ j =>
      simp only [updateSampled, List.getElem?_cons_succ]
      have h2 : (k + 1) + j ∉ sampled := by
        have he : (k + 1) + j = k + (j + 1) := by omega
        rw [he]
        exact h
      exact ih (k + 1) j h2

/-- Claim C1: the `validate_year` rejection condition is unsatisfiable and the
function is the identity on every integer year, never mapping it to NaN. -/
theorem validate_year_identity_on_int (y : ℤ) :
    ¬(y > MAX_YEAR ∧ y < MIN_YEAR) ∧
      validate_year (Cell.int y) = some (Cell.int y) := by
  refine ⟨fun h => ?_, ?_⟩
  · simp only [MAX_YEAR, MIN_YEAR] at h
    omega
  · simp only [validate_year, Option.some.injEq]
    rw [if_neg]
    simp only [MAX_YEAR, MIN_YEAR, not_and]
    intro h1 h2
    omega

/-- Claim C2 (code evidence): in `convert_min_string_to_int` the
`"min"`-suffix branch calls `int(...)` outside any `try`, so the string
`"abc Min"` raises an uncaught `ValueError` (`none`) instead of returning the
"unknown" sentinel; and `convert_hr_to_min` maps an unrecognized `"hrs"`
shape to the empty string, not to the "unknown" sentinel. -/
theorem convert_min_string_to_int_uncaught :
    convert_min_string_to_int (Cell.str (cl "abc Min")) = none ∧
      convert_hr_to_min (Cell.str (cl "HRs")) = Cell.str [] := by
  decide

/-- Claim C3 (counterexample): when both director cells are NaN,
`concat_director_values` returns the NaN `director` cell from its first
branch, not the empty string; the trailing `return ""` is unreachable. -/
theorem concat_director_both_nan_not_empty :
    concat_director_values Cell.nan Cell.nan = some Cell.nan ∧
      some Cell.nan ≠ some (Cell.str []) := by
  decide

/-- Claim C3 (amended): the truth table of `concat_director_values` is:
only `directors` has a value, use it; only `director` has a value, use it;
both have values, concatenate as `"<director>,<directors>"`; neither has a
value, the result is NaN (not the empty string). -/
theorem concat_director_truth_table (a b : List Char) :
    concat_director_values (Cell.str a) Cell.nan = some (Cell.str a) ∧
    concat_director_values Cell.nan (Cell.str b) = some (Cell.str b) ∧
    concat_director_values (Cell.str a) (Cell.str b) =
      some (Cell.str (a ++ ',' :: b)) ∧
    concat_director_values Cell.nan Cell.nan = some Cell.nan := by
  refine ⟨?_, ?_, ?_, rfl⟩ <;> simp [concat_director_values]

/-- Claim C4 (counterexample): `change_runtime_to_hour_min` drops a row whose
runtime cell is NaN — on a one-row table with NaN runtime and an empty sample
the returned table is empty, so the row is not present in the output. -/
theorem change_runtime_drops_nan_row :
    change_runtime_to_hour_min [⟨Cell.nan, 0⟩] [] = ([] : List Row) ∧
      (⟨Cell.nan, 0⟩ : Row) ∉ change_runtime_to_hour_min [⟨Cell.nan, 0⟩] [] := by
  decide

/-- Claim C4 (amended): `change_runtime_to_hour_min` returns only rows whose
runtime is not NaN (rows with NaN runtime are dropped by the `notna` filter),
and every position outside the sampled index set holds exactly the
corresponding row of the NaN-filtered table, unchanged. -/
theorem change_runtime_frame_spec (table : List Row) (sampled : List ℕ) :
    (∀ r ∈ change_runtime_to_hour_min table sampled,
        r.runtime ≠ Cell.nan) ∧
    ∀ i : ℕ, i ∉ sampled →
      (change_runtime_to_hour_min table sampled)[i]? =
        (table.filter (fun r => r.runtime != Cell.nan))[i]? := by
  constructor
  · apply updateSampled_runtime_ne_nan
    intro r hr
    have hmem := List.mem_filter.mp hr
    simpa using hmem.2
  · intro i hi
    exact updateSampled_get_not_sampled sampled _ 0 i (by simpa using hi)

/-- Claim C4 (witness): the amended statement evaluated on a concrete table
with one NaN-runtime row and one eligible row, with nothing sampled. -/
theorem change_runtime_frame_spec_witness :
    ((⟨Cell.int 90, 1⟩ : Row).runtime ≠ Cell.nan) ∧
    (change_runtime_to_hour_min [⟨Cell.nan, 0⟩, ⟨Cell.int 90, 1⟩] [])[0]? =
      (([⟨Cell.nan, 0⟩, ⟨Cell.int 90, 1⟩] : List Row).filter
        (fun r => r.runtime != Cell.nan))[0]? :=
  ⟨(change_runtime_frame_spec [⟨Cell.nan, 0⟩, ⟨Cell.int 90, 1⟩] []).1
      ⟨Cell.int 90, 1⟩ (by decide),
   (change_runtime_frame_spec [⟨Cell.nan, 0⟩, ⟨Cell.int 90, 1⟩] []).2 0
      (by decide)⟩

/-- Claim C5 (counterexample): `count_countries` on the empty string returns
1 (the single empty token of `"".split(",")`), not 0 — `pd.isna("")` is
false, so the empty string does not take the NaN branch. -/
theorem count_countries_empty_is_one :
    count_countries (Cell.str []) = some 1 ∧
      count_countries (Cell.str []) ≠ some 0 := by
  decide

/-- Claim C5 (amended): `count_countries` returns 0 for NaN, and for every
string — the empty string included — the number of comma-separated tokens,
a leading empty token counted: `"" ↦ 1`, `"USA" ↦ 1`, `",Spain,Mexico" ↦ 3`,
and in general one more than the number of commas. -/
theorem count_countries_spec (s : List Char) :
    count_countries Cell.nan = some 0 ∧
    count_countries (Cell.str []) = some 1 ∧
    count_countries (Cell.str (cl "USA")) = some 1 ∧
    count_countries (Cell.str (cl ",Spain,Mexico")) = some 3 ∧
    count_countries (Cell.str s) = some ((s.count ',' : ℤ) + 1) := by
  refine ⟨rfl, rfl, by decide, by decide, ?_⟩
  simp [count_countries, splitOnChar_length]

/-- Claim C6: duplicate injection appends each sampled row exactly twice and
replaces nothing, so with a sample of the pandas size `round(r * N)` the
returned table has exactly `N + 2 * round(r * N)` rows. -/
theorem add_duplicate_rows_count (table sampled : List Row) (r : ℚ)
    (hr0 : 0 ≤ r) (hr1 : r ≤ 1)
    (hs : sampled.length = (pyRound (r * table.length)).toNat) :
    (add_duplicate_rows table sampled).length =
      table.length + 2 * (pyRound (r * table.length)).toNat := by
  simp only [add_duplicate_rows, List.length_append, hs]
  omega

/-- Claim C6 (witness): a 5-row table with ratio `1/2` gains
`2 * round(2.5) = 4` rows. -/
theorem add_duplicate_rows_count_witness :
    (0 : ℚ) ≤ 1 / 2 ∧ (1 / 2 : ℚ) ≤ 1 ∧
    (add_duplicate_rows (List.replicate 5 ⟨Cell.int 90, 0⟩)
        (List.replicate 2 ⟨Cell.int 90, 0⟩)).length =
      (List.replicate 5 (⟨Cell.int 90, 0⟩ : Row)).length +
        2 * (pyRound ((1 : ℚ) / 2 *
          (List.replicate 5 (⟨Cell.int 90, 0⟩ : Row)).length)).toNat := by
  refine ⟨by norm_num, by norm_num, ?_⟩
  refine add_duplicate_rows_count _ _ ((1 : ℚ) / 2) (by norm_num) (by norm_num) ?_
  norm_num [pyRound, ratFloor]
  decide

set_option maxRecDepth 40000 in
/-- Claim C7: parsing the hours-format rendering of `m` back through the
runtime parsers recovers `m` exactly, for every `m` in `[2, 400]`. -/
theorem runtime_hours_roundtrip (m : ℕ) (h2 : 2 ≤ m) (h400 : m ≤ 400) :
    convert_min_string_to_int (convert_hr_to_min (convert_to_hr
      (Cell.str (natToChars m ++ cl " Min")))) = some (Cell.int m) := by
  have H : ∀ k : ℕ, k < 401 → 2 ≤ k →
      convert_min_string_to_int (convert_hr_to_min (convert_to_hr
        (Cell.str (natToChars k ++ cl " Min")))) = some (Cell.int k) := by
    decide
  exact H m (by omega) h2

/-- Claim C7 (witness): the round trip at `m = 93`. -/
theorem runtime_hours_roundtrip_witness :
    convert_min_string_to_int (convert_hr_to_min (convert_to_hr
      (Cell.str (natToChars 93 ++ cl " Min")))) = some (Cell.int 93) :=
  runtime_hours_roundtrip 93 (by norm_num) (by norm_num)

/-- Claim C8: `convert_year_to_four` keeps `y > 99` unchanged, maps
`[20, 99]` to `1900 + y` and `[0, 19]` to `2000 + y` with an exact boundary
at 20, reduces a parsable string to its numeric case, and yields NaN on an
unparsable string and on NaN. -/
theorem convert_year_to_four_spec (y : ℤ) (s : List Char) :
    (y > 99 → convert_year_to_four (Cell.int y) = Cell.int y) ∧
    (20 ≤ y ∧ y ≤ 99 →
        convert_year_to_four (Cell.int y) = Cell.int (1900 + y)) ∧
    (0 ≤ y ∧ y ≤ 19 →
        convert_year_to_four (Cell.int y) = Cell.int (2000 + y)) ∧
    (parsePyInt s = none → convert_year_to_four (Cell.str s) = Cell.nan) ∧
    (parsePyInt s = some y →
        convert_year_to_four (Cell.str s) = convert_year_to_four (Cell.int y)) ∧
    convert_year_to_four Cell.nan = Cell.nan := by
  refine ⟨?_, ?_, ?_, ?_, ?_, rfl⟩
  · intro h
    simp only [convert_year_to_four, convert_year_to_four_num]
    rw [if_pos h]
  · intro h
    simp only [convert_year_to_four, convert_year_to_four_num]
    rw [if_neg (by omega), if_pos (by omega)]
  · intro h
    simp only [convert_year_to_four, convert_year_to_four_num]
    rw [if_neg (by omega), if_neg (by omega)]
  · intro h
    simp [convert_year_to_four, h]
  · intro h
    simp [convert_year_to_four, h]

/-- Claim C8 (witness): the boundary cases 2000, 84, 12 and the unparsable
string `"BB"` from the repository's own tests. -/
theorem convert_year_to_four_spec_witness :
    convert_year_to_four (Cell.int 2000) = Cell.int 2000 ∧
    convert_year_to_four (Cell.int 84) = Cell.int (1900 + 84) ∧
    convert_year_to_four (Cell.int 12) = Cell.int (2000 + 12) ∧
    convert_year_to_four (Cell.str (cl "BB")) = Cell.nan :=
  ⟨(convert_year_to_four_spec 2000 []).1 (by norm_num),
   (convert_year_to_four_spec 84 []).2.1 (by norm_num),
   (convert_year_to_four_spec 12 []).2.2.1 (by norm_num),
   (convert_year_to_four_spec 0 (cl "BB")).2.2.2.1 (by decide)⟩

/-- Claim C9: `check_runtime_outliers` keeps every integer in `[2, 400]`
unchanged and maps every integer outside (zero and negatives included) to
NaN; composed in `clean_runtime_cell` this gives `"93 Min" ↦ 93`,
`"2 hrs 10" ↦ 130` and `"5000Min" ↦ NaN`. -/
theorem check_runtime_outliers_spec (v : ℤ) :
    (2 ≤ v ∧ v ≤ 400 →
        check_runtime_outliers (Cell.int v) = some (Cell.int v)) ∧
    (v < 2 ∨ v > 400 →
        check_runtime_outliers (Cell.int v) = some Cell.nan) ∧
    clean_runtime_cell (Cell.str (cl "93 Min")) = some (Cell.int 93) ∧
    clean_runtime_cell (Cell.str (cl "2 hrs 10")) = some (Cell.int 130) ∧
    clean_runtime_cell (Cell.str (cl "5000Min")) = some Cell.nan := by
  refine ⟨?_, ?_, by decide, by decide, by decide⟩
  · intro h
    simp only [check_runtime_outliers, RUNTIME_MIN, RUNTIME_MAX]
    rw [if_neg (by omega)]
  · intro h
    simp only [check_runtime_outliers, RUNTIME_MIN, RUNTIME_MAX]
    rw [if_pos (by omega)]

/-- Claim C9 (witness): the range check at 93 (kept) and 5000 (rejected). -/
theorem check_runtime_outliers_spec_witness :
    check_runtime_outliers (Cell.int 93) = some (Cell.int 93) ∧
    check_runtime_outliers (Cell.int 5000) = some Cell.nan :=
  ⟨(check_runtime_outliers_spec 93).1 (by norm_num),
   (check_runtime_outliers_spec 5000).2.1 (by norm_num)⟩

/-- Claim C10: on any column whose non-NaN cells are all non-empty strings,
`remove_leading_comma` raises nothing and drops a leading comma from each
cell (or leaves it unchanged); on an empty-string cell the unguarded
`cell_value[0]` raises `IndexError` (`none`). -/
theorem remove_leading_comma_total (col : List Cell)
    (hpre : ∀ c ∈ col, c ≠ Cell.nan → ∃ s, c = Cell.str s ∧ s ≠ []) :
    remove_leading_comma_col col = some (col.map stripLeadingCommaSpec) ∧
    remove_leading_comma_cell (Cell.str []) = none := by
  refine ⟨?_, rfl⟩
  induction col with
  | nil => rfl
  | cons c rest ih =>
    have hrest := ih (fun x hx => hpre x (List.mem_cons_of_mem c hx))
    simp only [remove_leading_comma_col, List.map_cons]
    rw [hrest]
    cases c with
    | nan => rfl
    | int n =>
      obtain ⟨s, hs, _⟩ := hpre (Cell.int n) (List.mem_cons_self _ _) (by simp)
      exact absurd hs (by simp)
    | str s =>
      cases s with
      | nil =>
        obtain ⟨t, ht, hne⟩ :=
          hpre (Cell.str []) (List.mem_cons_self _ _) (by simp)
        injection ht with h
        exact absurd h.symm hne
      | cons a as =>
        simp only [remove_leading_comma_cell, stripLeadingCommaSpec]

/-- Claim C10 (witness): the column `[NaN, ",US", "A"]` meets the
precondition and is transformed without an exception. -/
theorem remove_leading_comma_total_witness :
    remove_leading_comma_col [Cell.nan, Cell.str (cl ",US"), Cell.str (cl "A")] =
      some (([Cell.nan, Cell.str (cl ",US"), Cell.str (cl "A")] : List Cell).map
        stripLeadingCommaSpec) ∧
    remove_leading_comma_cell (Cell.str []) = none :=
  remove_leading_comma_total _ (by
    intro c hc hne
    simp only [List.mem_cons, List.not_mem_nil, or_false] at hc
    rcases hc with rfl | rfl | rfl
    · exact absurd rfl hne
    · exact ⟨cl ",US", rfl, by decide⟩
    · exact ⟨cl "A", rfl, by decide⟩)
